import Mathlib

/-!
Verification of the lead-generation pipeline backend (`backend/app.py`).

The development shallowly embeds the pieces of the backend that the
specification's claims are about: the small string utilities the code relies
on (Python truthiness, `str.zfill`, `str.isdigit`, `int(...)`, substring
tests), the date arithmetic used by the financial-year-end range filter
(`datetime.strptime`, `datetime(...)` construction with leap-year
validation), the domain-derivation helpers, the two outbound-API client
wrappers with their retry loops, and the background worker
`process_lead_generation_task` together with the submission endpoint.

External effects (HTTP calls, SMS sends, the wall clock) are modelled by an
explicit environment `Env` of response oracles; the worker is then a pure
function from the environment and the submitted criteria to the final task
record, paired with the number of requests issued to the company-registry
API (used to state that a run makes no registry calls).
-/

namespace Bogle

/-! ## Python-style string helpers -/

/-- Truthiness of an optional string, as Python evaluates `if x:` for a value
obtained from `dict.get`: `None` and the empty string are falsy. -/
def pyTruthy (o : Option String) : Bool :=
  match o with
  | none => false
  | some s => s ≠ ""

/-- `dict.get` followed by a truthiness test: returns the string only when it
is present and non-empty. -/
def getTruthyO (o : Option String) : Option String :=
  match o with
  | none => none
  | some s => if s = "" then none else some s

/-- Python `str.zfill(2)`: left-pad with `'0'` to width 2. -/
def zfill2 (s : String) : String :=
  String.mk (List.replicate (2 - s.length) '0') ++ s

/-- Python `str.isdigit()` (ASCII fragment): non-empty and all digits. -/
def isdigitStr (s : String) : Bool :=
  s ≠ "" && s.toList.all Char.isDigit

/-- Numeric value of a digit string (the value `int` returns on digit input). -/
def toNatDigits (s : String) : Nat :=
  s.toList.foldl (fun acc c => acc * 10 + (c.toNat - 48)) 0

/-- Python `int(s)` on a string: succeeds on digit strings, raises
`ValueError` otherwise (modelled as `Except.error`). -/
def pyInt (s : String) : Except String Nat :=
  if isdigitStr s then Except.ok (toNatDigits s)
  else Except.error ("invalid literal for int() with base 10: " ++ s)

/-- Python `needle in haystack` on strings: substring test. -/
def strContains (haystack needle : String) : Bool :=
  decide (List.IsInfix needle.toList haystack.toList)

/-- Replace every maximal run of characters satisfying `p` with the single
character `r` (the effect of `re.sub(pattern+, repl, s)` for a character
class). `inRun` records whether the previous character was in a run. -/
def collapseAux (p : Char → Bool) (r : Char) : Bool → List Char → List Char
  | _, [] => []
  | inRun, c :: cs =>
    if p c then (if inRun then [] else [r]) ++ collapseAux p r true cs
    else c :: collapseAux p r false cs

/-- `re.sub(class+, single char, s)` over a character list. -/
def collapseRuns (p : Char → Bool) (r : Char) (cs : List Char) : List Char :=
  collapseAux p r false cs

/-- Python `str.strip('-')`: drop leading and trailing hyphens. -/
def stripHyphens (cs : List Char) : List Char :=
  ((cs.dropWhile (fun c => c = '-')).reverse.dropWhile (fun c => c = '-')).reverse

/-- Python `str.lower()` (ASCII fragment). -/
def toLowerStr (s : String) : String :=
  String.mk (s.toList.map Char.toLower)

/-- Python `str.strip()`: drop surrounding whitespace. -/
def pyStrip (s : String) : String :=
  String.mk (((s.toList.dropWhile Char.isWhitespace).reverse.dropWhile
    Char.isWhitespace).reverse)

/-- Python `str.startswith`. -/
def strStartsWith (s head : String) : Bool :=
  head.toList.isPrefixOf s.toList

/-- Python `str.endswith`. -/
def strEndsWith (s tail : String) : Bool :=
  tail.toList.reverse.isPrefixOf s.toList.reverse

/-- Python slicing `s[n:]`. -/
def strDrop (s : String) (n : Nat) : String :=
  String.mk (s.toList.drop n)

/-- Python slicing `s[:-n]` (for `n ≤ len(s)`). -/
def strDropRight (s : String) (n : Nat) : String :=
  String.mk (s.toList.take (s.toList.length - n))

/-- Split a character list at every occurrence of `sep` (Python
`str.split(sep)` for a one-character separator). -/
def splitOnChar (sep : Char) : List Char → List (List Char)
  | [] => [[]]
  | c :: cs =>
    if c = sep then [] :: splitOnChar sep cs
    else
      match splitOnChar sep cs with
      | [] => [[c]]
      | g :: gs => (c :: g) :: gs

/-- Python `" ".join(parts)`. -/
def joinSpace (parts : List String) : String :=
  match parts with
  | [] => ""
  | p :: ps => ps.foldl (fun acc x => acc ++ " " ++ x) p

/-! ## Dates (`datetime.date`, `datetime.strptime`, `datetime(...)`) -/

/-- Gregorian leap-year rule used by `datetime`. -/
def isLeapYear (y : Nat) : Bool :=
  y % 4 = 0 && (y % 100 ≠ 0 || y % 400 = 0)

/-- Number of days of month `m` in year `y`. -/
def daysInMonth (y m : Nat) : Nat :=
  if m = 2 then (if isLeapYear y then 29 else 28)
  else if m = 4 || m = 6 || m = 9 || m = 11 then 30
  else 31

/-- Whether `datetime(y, m, d)` succeeds (its `ValueError` conditions:
year out of `[1, 9999]`, bad month, or day beyond the month's length). -/
def validDate (y m d : Nat) : Bool :=
  1 ≤ y && y ≤ 9999 && 1 ≤ m && m ≤ 12 && 1 ≤ d && d ≤ daysInMonth y m

/-- A concrete `datetime.date`. -/
structure PyDate where
  y : Nat
  m : Nat
  d : Nat
deriving DecidableEq, Repr

/-- `date` comparison (lexicographic year, month, day), as a Boolean. -/
def dateLE (a b : PyDate) : Bool :=
  decide (a.y < b.y ∨ (a.y = b.y ∧ (a.m < b.m ∨ (a.m = b.m ∧ a.d ≤ b.d))))

/-- `datetime.strptime(s, "%Y-%m-%d").date()`: three dash-separated digit
fields forming a valid date; anything else raises (modelled as `none`). -/
def parseDate (s : String) : Option PyDate :=
  match (splitOnChar '-' s.toList).map String.mk with
  | [ys, ms, ds] =>
    if isdigitStr ys && isdigitStr ms && isdigitStr ds then
      let y := toNatDigits ys
      let m := toNatDigits ms
      let d := toNatDigits ds
      if validDate y m d then some ⟨y, m, d⟩ else none
    else none
  | _ => none

/-! ## Data model (task records, criteria, registry payloads) -/

/-- The submitted search criteria (the JSON body of `/api/submit_criteria`,
with the keys `process_lead_generation_task` reads). Absent keys are `none`. -/
structure Criteria where
  sicCodesArray : List String := []
  budgetEndDateSearchType : Option String := none
  budgetEndMonth : Option String := none
  budgetEndStartDate : Option String := none
  budgetEndEndDate : Option String := none
  location : Option String := none
  revenueMin : Option Nat := none
  revenueMax : Option Nat := none
  employeesMin : Option Nat := none
  employeesMax : Option Nat := none
  phoneNumber : Option String := none
deriving DecidableEq, Repr

/-- A company profile's `accounting_reference_date` object. -/
structure ARDInfo where
  day : Option String := none
  month : Option String := none
deriving DecidableEq, Repr

/-- A profile's `registered_office_address` object (missing keys are `""`,
matching the `.get(key, '')` reads). -/
structure Address where
  address_line_1 : String := ""
  address_line_2 : String := ""
  locality : String := ""
  region : String := ""
  postal_code : String := ""
  country : String := ""
deriving DecidableEq, Repr

/-- A Companies House company profile, restricted to the fields the worker
reads. `company_website` stands for `links.company_website`. -/
structure CompanyProfile where
  company_number : Option String := none
  company_name : Option String := none
  company_status : Option String := none
  accounting_reference_date : Option ARDInfo := none
  registered_office_address : Option Address := none
  company_website : Option String := none
deriving DecidableEq, Repr

/-- One item of a `/search/companies` page. -/
structure SearchItem where
  company_number : Option String := none
deriving DecidableEq, Repr

/-- One page of `/search/companies` results (`total_results` defaults to 0
when the key is missing, matching `.get('total_results', 0)`). -/
structure SearchPage where
  items : List SearchItem := []
  total_results : Nat := 0
deriving DecidableEq, Repr

/-- One officer entry of `/company/{n}/officers`. -/
structure Officer where
  name : Option String := none
  officer_role : Option String := none
  resigned_on : Option String := none
deriving DecidableEq, Repr

/-- A JSON object returned by the Anymailfinder person search (restricted to
the keys the worker reads). -/
structure AmfResult where
  email : Option String := none
  status : Option String := none
  error : Option String := none
  message : Option String := none
deriving DecidableEq, Repr

/-- The query parameters the worker sends to Anymailfinder. -/
structure AmfParams where
  company_domain : Option String := none
  company_name : Option String := none
  full_name : String := ""
deriving DecidableEq, Repr

/-- A company profile annotated by stage 2 (the worker adds `search_date` and
`original_search_criteria` keys before appending the profile). -/
structure QualifiedProfile where
  profile : CompanyProfile
  search_date : String
  original_search_criteria : Criteria
deriving DecidableEq, Repr

/-- One lead appended to `final_leads_list`. -/
structure Lead where
  company_name : Option String
  company_number : Option String
  person_name : String
  person_role : String
  email : String
  accounting_reference_date : String
  search_performed_on : String
  original_search_criteria : Criteria
deriving DecidableEq, Repr

/-- The `results` field of a task record: a list of qualified company
profiles after stage 2, or the final lead list after stage 3. -/
inductive TaskResults where
  | companies (l : List QualifiedProfile)
  | leadList (l : List Lead)
deriving DecidableEq, Repr

/-- A `tasks_db` record. -/
structure TaskRecord where
  status : String
  data : Criteria
  phone_number : String
  results : Option TaskResults
  error : Option String
  sms_status : String
  sms_error : Option String
deriving DecidableEq, Repr

/-- The record created by the submission endpoint. -/
def initialRecord (data : Criteria) (phone : String) : TaskRecord :=
  { status := "pending", data := data, phone_number := phone,
    results := none, error := none, sms_status := "pending", sms_error := none }

/-- Process configuration (environment variables read at startup). -/
structure Config where
  maxCompanies : Nat := 10
  maxInitial : Nat := 200
  twilioConfigured : Bool := true
  appBaseUrl : String := "http://localhost:8000"

/-- The worker's external world: oracles for the three registry endpoints,
the email finder, the SMS send, and the evaluation timestamp. A `none`
answer models a client wrapper returning `None`. -/
structure Env where
  searchPage : String → Nat → Option SearchPage
  profile : String → Option CompanyProfile
  officers : Option String → Option (List Officer)
  amf : AmfParams → Option AmfResult
  smsSend : String → String → Except String String
  now : String

/-! ## Domain derivation (`extract_domain_from_url`,
`heuristically_derive_domain_from_name`) -/

/-- `urlparse(u).netloc` for a URL already carrying an `http://` or
`https://` scheme: the characters after the scheme up to the first `/`, `?`
or `#`. `urlparse` raises `ValueError` on an unbalanced square bracket in
the authority; the embedding reports that as `none` via the caller's
`except` clause. -/
def urlNetloc (u : String) : Option String :=
  let rest := if strStartsWith u "http://" then strDrop u 7 else strDrop u 8
  let netlocL := rest.toList.takeWhile fun c => c ≠ '/' && c ≠ '?' && c ≠ '#'
  if (netlocL.contains '[' && !netlocL.contains ']')
      || (netlocL.contains ']' && !netlocL.contains '[') then none
  else some (String.mk netlocL)

/-- `extract_domain_from_url`: prepend a scheme when missing, take the
parsed host, drop a leading `www.`, and return `None` for a falsy input, a
parse error, or an empty host. -/
def extract_domain_from_url (website_url : String) : Option String :=
  if website_url = "" then none
  else
    let u :=
      if strStartsWith website_url "http://" || strStartsWith website_url "https://"
      then website_url else "https://" ++ website_url
    match urlNetloc u with
    | none => none
    | some netloc =>
      let domain := if strStartsWith netloc "www." then strDrop netloc 4 else netloc
      if domain = "" then none else some domain

/-- `suffixes_to_remove`, in source order (longer entries first). -/
def suffixesToRemove : List String :=
  [" limited liability partnership", " public limited company",
   " community interest company", " ltd", " limited",
   " plc", " llp", " cic"]

/-- The `for suffix in suffixes_to_remove: ... break` loop: strip the first
matching legal-entity ending and the surrounding whitespace. -/
def stripLegalEnding (name : String) : String :=
  match suffixesToRemove.find? (fun suf => strEndsWith name suf) with
  | some suf => pyStrip (strDropRight name suf.length)
  | none => name

/-- A character kept by `re.sub(r'[^\w\s-]', '', name)`: word characters
(alphanumeric or underscore), whitespace, or hyphen. -/
def keptChar (c : Char) : Bool :=
  c.isAlphanum || c = '_' || c.isWhitespace || c = '-'

/-- `heuristically_derive_domain_from_name`: lowercase, strip one legal
suffix, drop characters outside `[\w\s-]`, collapse whitespace runs to a
hyphen, collapse hyphen runs, strip outer hyphens, and append `.co.uk`;
`None` for a falsy input or when cleaning empties the name. -/
def heuristically_derive_domain_from_name (company_name : String) : Option String :=
  if company_name = "" then none
  else
    let name := (stripLegalEnding (toLowerStr company_name)).toList.filter keptChar
    let name := collapseRuns Char.isWhitespace '-' name
    let name := collapseRuns (fun c => c = '-') '-' name
    let name := String.mk (stripHyphens name)
    if name = "" then none
    else some (name ++ ".co.uk")

/-! ## Client wrappers (`make_companies_house_request`,
`make_anymailfinder_request`)

An outbound `requests.get` is modelled by an oracle from the attempt index
to its outcome. The wrappers return the value the Python function returns
(`Except.error` marks an exception escaping the function), the number of
attempts issued, and the list of `time.sleep` delays performed, so that the
retry policy is fully observable. -/

/-- Outcome of one `requests.get`: a JSON body, an HTTP error status raised
by `raise_for_status` (with the optional `Retry-After` header), a
connection error, a timeout, or another request exception. -/
inductive HttpAttempt (α : Type) where
  | ok (body : α)
  | httpErr (status : Nat) (retryAfter : Option String)
  | connErr
  | timeoutErr
  | reqErr
deriving DecidableEq, Repr

/-- `int(response.headers.get("Retry-After", 5))`. -/
def chRetryAfter (ra : Option String) : Except String Nat :=
  match ra with
  | none => Except.ok 5
  | some s => pyInt s

/-- The `for attempt in range(retries + 1)` loop of
`make_companies_house_request`, iterating over the remaining attempt
indices. `attempt < retries` is exactly "the index list has a tail". The
`except Timeout` / `except RequestException` clauses at source lines
397-400 are indented outside the `try` (they belong to no syntactically
valid position), so those two outcomes escape the function; they are
modelled as `Except.error`. -/
def chLoop {α : Type} (attempts : Nat → HttpAttempt α) :
    List Nat → Except String (Option α) × Nat × List Nat
  | [] => (Except.ok none, 0, [])
  | i :: rest =>
    match attempts i with
    | HttpAttempt.ok j => (Except.ok (some j), 1, [])
    | HttpAttempt.httpErr st ra =>
      if st = 429 && !rest.isEmpty then
        match chRetryAfter ra with
        | Except.error e => (Except.error e, 1, [])
        | Except.ok delay =>
          let r := chLoop attempts rest
          (r.1, r.2.1 + 1, delay :: r.2.2)
      else (Except.ok none, 1, [])
    | HttpAttempt.connErr =>
      if !rest.isEmpty then
        let r := chLoop attempts rest
        (r.1, r.2.1 + 1, 5 :: r.2.2)
      else (Except.ok none, 1, [])
    | HttpAttempt.timeoutErr => (Except.error "requests.exceptions.Timeout", 1, [])
    | HttpAttempt.reqErr => (Except.error "requests.exceptions.RequestException", 1, [])

/-- `make_companies_house_request` with `retries = 1`: at most the two
attempts `range(2)`. -/
def make_companies_house_request_model {α : Type} (attempts : Nat → HttpAttempt α) :
    Except String (Option α) × Nat × List Nat :=
  chLoop attempts [0, 1]

/-- The `{"error": "not_found", ...}` object `make_anymailfinder_request`
returns on HTTP 404. -/
def amfNotFound : AmfResult :=
  { email := none, status := none, error := some "not_found",
    message := some "Person not found or no email available." }

/-- The retry loop of `make_anymailfinder_request`: 429 retries once after
a fixed 10s delay, 404 returns the typed not-found object, a connection
error retries once after 10s, a timeout breaks immediately, another request
exception retries once after 5s; every other path returns `None`. -/
def amfLoop (attempts : Nat → HttpAttempt AmfResult) :
    List Nat → Option AmfResult × Nat × List Nat
  | [] => (none, 0, [])
  | i :: rest =>
    match attempts i with
    | HttpAttempt.ok j => (some j, 1, [])
    | HttpAttempt.httpErr st _ =>
      if st = 429 && !rest.isEmpty then
        let r := amfLoop attempts rest
        (r.1, r.2.1 + 1, 10 :: r.2.2)
      else if st = 404 then (some amfNotFound, 1, [])
      else (none, 1, [])
    | HttpAttempt.connErr =>
      if !rest.isEmpty then
        let r := amfLoop attempts rest
        (r.1, r.2.1 + 1, 10 :: r.2.2)
      else (none, 1, [])
    | HttpAttempt.timeoutErr => (none, 1, [])
    | HttpAttempt.reqErr =>
      if !rest.isEmpty then
        let r := amfLoop attempts rest
        (r.1, r.2.1 + 1, 5 :: r.2.2)
      else (none, 1, [])

/-- `make_anymailfinder_request` with `retries = 1`. -/
def make_anymailfinder_request_model (attempts : Nat → HttpAttempt AmfResult) :
    Option AmfResult × Nat × List Nat :=
  amfLoop attempts [0, 1]

/-! ## Stage 2: per-company filtering -/

/-- The inner `for potential_ard_year in range(...)` scan: some year in
`[search_start.year - 1, search_end.year + 1]` yields a constructible
year-end date inside the inclusive search range (years whose `datetime`
construction raises are skipped by the inner `except ValueError`). -/
def ardYearScan (sd ed : PyDate) (m d : Nat) : Bool :=
  (List.range' (sd.y - 1) (ed.y + 1 + 1 - (sd.y - 1))).any fun y =>
    validDate y m d && dateLE sd ⟨y, m, d⟩ && dateLE ⟨y, m, d⟩ ed

/-- The body of the `'range'` branch once both user date strings are truthy
and the ARD day/month strings are digits: parse the two user dates (a
`strptime` failure is caught and skips the check), pre-validate the raw
day/month bounds, then scan candidate years. `true` means the company is
not rejected by this filter. -/
def ardRangeCheck (sds eds ard_day_str ard_month_str : String) : Bool :=
  match parseDate sds, parseDate eds with
  | some sd, some ed =>
    let ard_day := toNatDigits ard_day_str
    let ard_month := toNatDigits ard_month_str
    if !(1 ≤ ard_month && ard_month ≤ 12 && 1 ≤ ard_day && ard_day ≤ 31) then true
    else ardYearScan sd ed ard_month ard_day
  | _, _ => true

/-- The financial-year-end filter of stage 2 (source lines 152-199).
`Except.ok true` keeps the company, `Except.ok false` rejects it;
`Except.error` is the uncaught `ValueError` from `int(search_month_str)` on
a non-numeric `budgetEndMonth`. -/
def ardFilter (c : Criteria) (info? : Option ARDInfo) : Except String Bool :=
  match getTruthyO c.budgetEndDateSearchType, info? with
  | some ft, some info =>
    let ard_month_str := zfill2 (info.month.getD "")
    let ard_day_str := zfill2 (info.day.getD "")
    if ft = "month" then
      match getTruthyO c.budgetEndMonth with
      | some sm =>
        if isdigitStr ard_month_str then
          match pyInt sm with
          | Except.error e => Except.error e
          | Except.ok smv => Except.ok (toNatDigits ard_month_str = smv)
        else Except.ok true
      | none => Except.ok true
    else if ft = "range" then
      match getTruthyO c.budgetEndStartDate, getTruthyO c.budgetEndEndDate with
      | some sds, some eds =>
        if isdigitStr ard_day_str && isdigitStr ard_month_str then
          Except.ok (ardRangeCheck sds eds ard_day_str ard_month_str)
        else Except.ok true
      | _, _ => Except.ok true
    else Except.ok true
  | _, _ => Except.ok true

/-- The location filter of stage 2: when the user supplied a non-empty
location, the lowercased join of the non-empty address parts must contain
it. -/
def locationOk (c : Criteria) (p : CompanyProfile) : Bool :=
  let user_location := toLowerStr (pyStrip (c.location.getD ""))
  if user_location = "" then true
  else
    let a := p.registered_office_address.getD {}
    let address_parts := [a.address_line_1, a.address_line_2, a.locality,
                          a.region, a.postal_code, a.country]
    let full := toLowerStr (joinSpace (address_parts.filter (fun s => s ≠ "")))
    strContains full user_location

/-- Annotation of an accepted profile (`search_date` and
`original_search_criteria` keys added before appending). -/
def mkQualified (env : Env) (c : Criteria) (p : CompanyProfile) : QualifiedProfile :=
  { profile := p, search_date := env.now, original_search_criteria := c }

/-- The stage-2 `for company_item in all_company_items_from_search` loop.
Returns the qualified list (or the exception escaping the loop) and the
number of registry profile requests issued. A falsy `company_number` skips
the item without a request; every other item costs one profile request;
the loop breaks once the qualified list reaches
`MAX_COMPANIES_TO_PROCESS_CONFIG`. -/
def filterLoop (env : Env) (cfg : Config) (c : Criteria) :
    List SearchItem → List QualifiedProfile →
    Except String (List QualifiedProfile) × Nat
  | [], acc => (Except.ok acc, 0)
  | item :: rest, acc =>
    match getTruthyO item.company_number with
    | none => filterLoop env cfg c rest acc
    | some num =>
      let step :=
        match env.profile num with
        | none => filterLoop env cfg c rest acc
        | some p =>
          if p.company_status ≠ some "active" then filterLoop env cfg c rest acc
          else
            match ardFilter c p.accounting_reference_date with
            | Except.error e => (Except.error e, 0)
            | Except.ok keep =>
              if keep = false then filterLoop env cfg c rest acc
              else if locationOk c p = false then filterLoop env cfg c rest acc
              else
                let acc2 := acc ++ [mkQualified env c p]
                if cfg.maxCompanies ≤ acc2.length then (Except.ok acc2, 0)
                else filterLoop env cfg c rest acc2
      (step.1, step.2 + 1)

/-! ## Stage 1: paged search -/

/-- The `while True` pagination loop, returning the accumulated items and
the number of search requests issued. It breaks on an empty or failed page,
on reaching the server-reported total, or on reaching
`MAX_INITIAL_SEARCH_RESULTS_CONFIG`. Each continuing iteration appends at
least one item, so `cfg.maxInitial + 1` units of fuel (supplied by
`runTask`) cover every reachable iteration. -/
def searchLoop (env : Env) (cfg : Config) (q : String) :
    Nat → Nat → List SearchItem → List SearchItem × Nat
  | 0, _, acc => (acc, 0)
  | fuel + 1, start_index, acc =>
    match env.searchPage q start_index with
    | none => (acc, 1)
    | some page =>
      if page.items.isEmpty then (acc, 1)
      else
        let acc2 := acc ++ page.items
        if start_index + 100 ≥ page.total_results
            || cfg.maxInitial ≤ acc2.length then (acc2, 1)
        else
          let r := searchLoop env cfg q fuel (start_index + 100) acc2
          (r.1, r.2 + 1)

/-! ## Stage 3: decision-makers and email resolution -/

/-- `TARGET_ROLES_KEYWORDS`. -/
def targetRolesKeywords : List String :=
  ["director", "ceo", "chief executive officer", "owner", "founder",
   "cfo", "chief financial officer"]

/-- The `accounting_reference_date` rendering of a lead
(`f"{day.zfill(2)}/{month.zfill(2)}"` with `'N/A'` defaults). -/
def formatArd (info? : Option ARDInfo) : String :=
  zfill2 ((info?.bind (fun i => i.day)).getD "N/A") ++ "/" ++
    zfill2 ((info?.bind (fun i => i.month)).getD "N/A")

/-- The lead object appended for an officer whose email was accepted. -/
def mkLead (q : QualifiedProfile) (officer_name officer_role_raw email : String) : Lead :=
  { company_name := q.profile.company_name,
    company_number := q.profile.company_number,
    person_name := officer_name, person_role := officer_role_raw,
    email := email,
    accounting_reference_date := formatArd q.profile.accounting_reference_date,
    search_performed_on := q.search_date,
    original_search_criteria := q.original_search_criteria }

/-- Handling of one Anymailfinder response (source lines 315-329): append a
lead exactly when the response is truthy with a truthy `email` and a
`status` in `['verified', ' probabilmente_valida']`; the explicit
`not_found` shape and every other shape leave the lead list unchanged. -/
def handleAmfResponse (q : QualifiedProfile) (officer_name officer_role_raw : String)
    (r : Option AmfResult) (leads : List Lead) : List Lead :=
  match r with
  | some res =>
    if pyTruthy res.email
        && (res.status = some "verified" || res.status = some " probabilmente_valida") then
      leads ++ [mkLead q officer_name officer_role_raw (res.email.getD "")]
    else leads
  | none => leads

/-- Processing of one officer entry: resigned officers are skipped before
the role test; a decision-maker with a truthy name gets a domain (registry
website link first, name heuristic second) and one email-finder query. -/
def processOfficer (env : Env) (q : QualifiedProfile)
    (leads : List Lead) (officer : Officer) : List Lead :=
  let officer_role_raw := toLowerStr (officer.officer_role.getD "")
  let officer_name := officer.name.getD ""
  if pyTruthy officer.resigned_on then leads
  else
    let is_decision_maker :=
      targetRolesKeywords.any fun keyword => strContains officer_role_raw keyword
    if is_decision_maker && officer_name ≠ "" then
      let fromLink :=
        match getTruthyO q.profile.company_website with
        | some url => extract_domain_from_url url
        | none => none
      let derived_domain :=
        match fromLink with
        | none => heuristically_derive_domain_from_name (q.profile.company_name.getD "")
        | some d => some d
      let anymail_params : AmfParams :=
        match derived_domain with
        | some d => { company_domain := some d, full_name := officer_name }
        | none => { company_name := q.profile.company_name, full_name := officer_name }
      handleAmfResponse q officer_name officer_role_raw (env.amf anymail_params) leads
    else leads

/-- The stage-3 `for company_profile_item in qualified_companies_profiles`
loop, returning the lead list and the number of registry officer requests
issued (one per qualified company, before any check). -/
def stage3 (env : Env) :
    List QualifiedProfile → List Lead → List Lead × Nat
  | [], leads => (leads, 0)
  | q :: rest, leads =>
    let step :=
      match env.officers q.profile.company_number with
      | none => stage3 env rest leads
      | some items => stage3 env rest (items.foldl (processOfficer env q) leads)
    (step.1, step.2 + 1)

/-! ## Stage 4: SMS notification, and the worker -/

/-- The SMS body composed for a task in terminal status `status`. -/
def smsBody (cfg : Config) (task_id status : String) : String :=
  let leads_page_link := cfg.appBaseUrl ++ "/leads.html?id=" ++ task_id
  if status = "completed_no_results" || status = "completed_no_emails" then
    "Your leads request is complete (" ++ status ++
      "). No leads with emails were found based on your criteria. Link for details: "
      ++ leads_page_link
  else
    "Your leads request (" ++ status ++ ") is complete! View your leads here: "
      ++ leads_page_link

/-- Step 9 (source lines 339-360): attempt the SMS when the status is
neither `failed` nor `pending` and the phone is truthy; an unconfigured
Twilio client records `not_configured`; a send failure records
`failed_to_send` and the error; only the `sms_status` / `sms_error` fields
are ever written. -/
def smsStep (env : Env) (cfg : Config) (task_id phone : String)
    (r : TaskRecord) : TaskRecord :=
  if (r.status ≠ "failed" && r.status ≠ "pending") && phone ≠ "" then
    if cfg.twilioConfigured then
      match env.smsSend phone (smsBody cfg task_id r.status) with
      | Except.ok _ => { r with sms_status := "sent" }
      | Except.error e => { r with sms_status := "failed_to_send", sms_error := some e }
    else { r with sms_status := "not_configured" }
  else r

/-- `process_lead_generation_task`: the whole background worker run over the
record created at submission. The result pairs the final `tasks_db` record
with the total number of Companies House requests issued. The missing
SIC-code `ValueError` and any exception escaping a stage land in the
`except` clauses, which set `status = 'failed'` and `error = str(e)`; no
`tasks_db` write precedes a possible exception point, so the failed record
keeps its initial `results`. -/
def runTask (env : Env) (cfg : Config) (task_id : String)
    (data : Criteria) (phone : String) : TaskRecord × Nat :=
  let r0 := initialRecord data phone
  if data.sicCodesArray.isEmpty then
    ({ r0 with
       status := "failed",
       error := some "No SIC codes provided for search." }, 0)
  else
    let primary_sic_code := data.sicCodesArray.headD ""
    let search := searchLoop env cfg primary_sic_code (cfg.maxInitial + 1) 0 []
    if search.1.isEmpty then
      let r1 := { r0 with results := some (TaskResults.companies []),
                          status := "completed_no_results" }
      (smsStep env cfg task_id phone r1, search.2)
    else
      match filterLoop env cfg data search.1 [] with
      | (Except.error e, n2) =>
        ({ r0 with status := "failed", error := some e }, search.2 + n2)
      | (Except.ok qualified, n2) =>
        let r1 := { r0 with status := "completed_ch_search",
                            results := some (TaskResults.companies qualified) }
        if qualified.isEmpty then
          (smsStep env cfg task_id phone r1, search.2 + n2)
        else
          let amf := stage3 env qualified []
          let r2 := { r1 with
            results := some (TaskResults.leadList amf.1),
            status := if amf.1.isEmpty then "completed_no_emails"
                      else "completed_anymailfinder" }
          (smsStep env cfg task_id phone r2, search.2 + n2 + amf.2)

/-! ## Submission endpoint -/

/-- Outcome of `/api/submit_criteria`: the HTTP status, the record inserted
into `tasks_db` (with its fresh task id) when one was created, and whether
a background worker thread was started. -/
structure SubmitResult where
  httpStatus : Nat
  taskCreated : Option (String × TaskRecord)
  workerStarted : Bool
deriving DecidableEq, Repr

/-- `submit_criteria_route`: reject non-JSON requests, falsy payloads, and
payloads without a truthy `phoneNumber`; otherwise insert the pending
record and start the worker. -/
def submit_criteria_route (is_json : Bool) (payload : Option Criteria)
    (fresh_task_id : String) : SubmitResult :=
  if is_json = false then
    { httpStatus := 400, taskCreated := none, workerStarted := false }
  else
    match payload with
    | none => { httpStatus := 400, taskCreated := none, workerStarted := false }
    | some data =>
      match getTruthyO data.phoneNumber with
      | none => { httpStatus := 400, taskCreated := none, workerStarted := false }
      | some phone_number =>
        { httpStatus := 202,
          taskCreated := some (fresh_task_id, initialRecord data phone_number),
          workerStarted := true }

/-! ## Helper lemmas -/

theorem pyTruthy_iff (o : Option String) :
    pyTruthy o = true ↔ ∃ s, o = some s ∧ s ≠ "" := by
  cases o <;> simp [pyTruthy]

theorem append_singleton_ne (l : List Lead) (x : Lead) : l ++ [x] ≠ l := by
  intro h
  have := congrArg List.length h
  simp at this

/-- A fixture environment whose oracles all answer negatively. -/
def envW : Env :=
  { searchPage := fun _ _ => none, profile := fun _ => none,
    officers := fun _ => none, amf := fun _ => none,
    smsSend := fun _ _ => Except.ok "SM0", now := "2025-01-01T00:00:00" }

/-- A fixture environment whose SMS send fails. -/
def envWFail : Env :=
  { envW with smsSend := fun _ _ => Except.error "Twilio rejected the send" }

/-- A fixture environment whose email finder answers positively. -/
def envWAmf : Env :=
  { envW with
    amf := fun _ => some { email := some "jane@acme-co.co.uk", status := some "verified" } }

/-- A fixture qualified profile. -/
def qualW : QualifiedProfile :=
  mkQualified envW { sicCodesArray := ["62020"] }
    { company_number := some "00000001", company_name := some "Acme & Co Limited",
      company_status := some "active" }

/-! ## C5 — Domain Deriver reference inputs -/

set_option maxRecDepth 16384 in
/-- C5: the Domain Deriver meets its contract on the spec's reference
inputs: `"Acme & Co Limited"` with no URL yields `"acme-co.co.uk"`;
`"https://www.example.com/path"` yields `"example.com"` (and the host is
also extracted when the scheme is missing); an empty company name yields
`none`; a malformed URL (unbalanced bracket, which makes `urlparse` raise)
yields `none` instead of propagating the exception. -/
theorem c5_domain_deriver :
    heuristically_derive_domain_from_name "Acme & Co Limited" = some "acme-co.co.uk" ∧
    extract_domain_from_url "https://www.example.com/path" = some "example.com" ∧
    extract_domain_from_url "www.example.com/path" = some "example.com" ∧
    heuristically_derive_domain_from_name "" = none ∧
    extract_domain_from_url "https://[bad-url" = none := by
  refine ⟨?_, ?_, ?_, ?_, ?_⟩ <;> decide

/-! ## C7 — email acceptance condition -/

/-- C7: stage 3 appends a lead for an email-finder response exactly when
the response carries a non-empty `email` and a `status` in the
verified/likely-valid set; in that case the appended lead carries that
email; every other response shape (including the explicit `not_found`
object) leaves the lead list unchanged. -/
theorem c7_email_acceptance (q : QualifiedProfile)
    (officer_name officer_role_raw : String) (r : Option AmfResult)
    (leads : List Lead) :
    (handleAmfResponse q officer_name officer_role_raw r leads ≠ leads ↔
      ∃ res e, r = some res ∧ res.email = some e ∧ e ≠ "" ∧
        (res.status = some "verified" ∨ res.status = some " probabilmente_valida")) ∧
    (∀ res e, r = some res → res.email = some e → e ≠ "" →
      (res.status = some "verified" ∨ res.status = some " probabilmente_valida") →
      handleAmfResponse q officer_name officer_role_raw r leads
        = leads ++ [mkLead q officer_name officer_role_raw e]) := by
  have key : ∀ (res : AmfResult) (e : String), res.email = some e → e ≠ "" →
      (res.status = some "verified" ∨ res.status = some " probabilmente_valida") →
      handleAmfResponse q officer_name officer_role_raw (some res) leads
        = leads ++ [mkLead q officer_name officer_role_raw e] := by
    intro res e hee hene hs
    have hpt : pyTruthy (some e) = true := by simp [pyTruthy, hene]
    rcases hs with hs | hs <;> simp [handleAmfResponse, hpt, hs, hee]
  constructor
  · constructor
    · intro hne
      cases r with
      | none => simp [handleAmfResponse] at hne
      | some res =>
        by_cases hpt : pyTruthy res.email = true
        · by_cases hs1 : res.status = some "verified"
          · obtain ⟨e, hee, hene⟩ := (pyTruthy_iff _).mp hpt
            exact ⟨res, e, rfl, hee, hene, Or.inl hs1⟩
          · by_cases hs2 : res.status = some " probabilmente_valida"
            · obtain ⟨e, hee, hene⟩ := (pyTruthy_iff _).mp hpt
              exact ⟨res, e, rfl, hee, hene, Or.inr hs2⟩
            · exact absurd (by simp [handleAmfResponse, hs1, hs2]) hne
        · have hf : pyTruthy res.email = false := by
            revert hpt; cases pyTruthy res.email <;> simp
          exact absurd (by simp [handleAmfResponse, hf]) hne
    · rintro ⟨res, e, rfl, hee, hene, hs⟩
      rw [key res e hee hene hs]
      exact append_singleton_ne leads _
  · rintro res e rfl hee hene hs
    exact key res e hee hene hs

/-- C7 witness: a concrete `verified` response with a non-empty email is
appended as a lead. -/
theorem c7_email_acceptance_witness :
    handleAmfResponse qualW "Jane Doe" "director"
        (some { email := some "jane@acme-co.co.uk", status := some "verified" }) []
      = [] ++ [mkLead qualW "Jane Doe" "director" "jane@acme-co.co.uk"] :=
  (c7_email_acceptance qualW "Jane Doe" "director"
      (some { email := some "jane@acme-co.co.uk", status := some "verified" }) []).2
    { email := some "jane@acme-co.co.uk", status := some "verified" }
    "jane@acme-co.co.uk" rfl rfl (by decide) (Or.inl rfl)

/-! ## C8 — resigned officers produce no lead -/

/-- C8: an officer entry carrying a (non-empty) resignation date is skipped
before the role test, so it never contributes a lead, whatever its role
string, name, or the email finder's answers. -/
theorem c8_resigned_officer_no_lead (env : Env) (q : QualifiedProfile)
    (leads : List Lead) (officer : Officer) (s : String)
    (hres : officer.resigned_on = some s) (hne : s ≠ "") :
    processOfficer env q leads officer = leads := by
  unfold processOfficer
  rw [hres]
  simp [pyTruthy, hne]

/-- C8 witness: a resigned director yields no lead even in an environment
whose email finder would answer positively. -/
theorem c8_resigned_officer_no_lead_witness :
    processOfficer envWAmf qualW []
      { name := some "Jane Doe", officer_role := some "Director",
        resigned_on := some "2020-01-01" } = [] :=
  c8_resigned_officer_no_lead _ qualW []
    { name := some "Jane Doe", officer_role := some "Director",
      resigned_on := some "2020-01-01" }
    "2020-01-01" rfl (by decide)

/-! ## C9 — SMS failure frame -/

/-- C9: when the Twilio send raises, the worker records
`sms_status = 'failed_to_send'` and the error text, and leaves the task's
`status` and `results` exactly as they were before the attempt. -/
theorem c9_sms_failure_frame (env : Env) (cfg : Config)
    (task_id phone : String) (r : TaskRecord) (msg : String)
    (h1 : r.status ≠ "failed") (h2 : r.status ≠ "pending") (h3 : phone ≠ "")
    (h4 : cfg.twilioConfigured = true)
    (h5 : env.smsSend phone (smsBody cfg task_id r.status) = Except.error msg) :
    (smsStep env cfg task_id phone r).sms_status = "failed_to_send" ∧
    (smsStep env cfg task_id phone r).sms_error = some msg ∧
    (smsStep env cfg task_id phone r).status = r.status ∧
    (smsStep env cfg task_id phone r).results = r.results := by
  simp [smsStep, h1, h2, h3, h4, h5]

/-- C9 witness: a concrete failing send on a `completed_anymailfinder`
record. -/
theorem c9_sms_failure_frame_witness :
    (smsStep envWFail {} "tid" "+441234567890"
        { status := "completed_anymailfinder", data := {},
          phone_number := "+441234567890",
          results := some (TaskResults.leadList []), error := none,
          sms_status := "pending", sms_error := none }).sms_status
      = "failed_to_send" ∧
    (smsStep envWFail {} "tid" "+441234567890"
        { status := "completed_anymailfinder", data := {},
          phone_number := "+441234567890",
          results := some (TaskResults.leadList []), error := none,
          sms_status := "pending", sms_error := none }).status
      = "completed_anymailfinder" :=
  have h := c9_sms_failure_frame envWFail {} "tid" "+441234567890"
    { status := "completed_anymailfinder", data := {},
      phone_number := "+441234567890",
      results := some (TaskResults.leadList []), error := none,
      sms_status := "pending", sms_error := none }
    "Twilio rejected the send"
    (by decide) (by decide) (by decide) rfl rfl
  ⟨h.1, h.2.2.1⟩

/-! ## C10 — submission requires a phone number -/

/-- C10: a submission whose payload lacks a truthy `phoneNumber` (key
absent or value empty) is rejected with HTTP 400, inserts no task record
and starts no worker; conversely a task record is only ever created — and
the worker only started — for a payload carrying a non-empty phone number,
and the created record is the pending initial record. -/
theorem c10_submit_requires_phone (is_json : Bool) (payload : Option Criteria)
    (fresh_task_id : String) :
    (∀ data, payload = some data →
      (data.phoneNumber = none ∨ data.phoneNumber = some "") →
      submit_criteria_route is_json payload fresh_task_id =
        { httpStatus := 400, taskCreated := none, workerStarted := false }) ∧
    (∀ tid rec,
      (submit_criteria_route is_json payload fresh_task_id).taskCreated
          = some (tid, rec) →
      (submit_criteria_route is_json payload fresh_task_id).workerStarted = true ∧
      ∃ data p, payload = some data ∧ data.phoneNumber = some p ∧ p ≠ "" ∧
        tid = fresh_task_id ∧ rec = initialRecord data p) := by
  constructor
  · rintro data rfl hmiss
    cases is_json with
    | false => rfl
    | true =>
      have : getTruthyO data.phoneNumber = none := by
        rcases hmiss with h | h <;> simp [getTruthyO, h]
      simp [submit_criteria_route, this]
  · intro tid rec hcreated
    cases is_json with
    | false => simp [submit_criteria_route] at hcreated
    | true =>
      cases payload with
      | none => simp [submit_criteria_route] at hcreated
      | some data =>
        cases hp : getTruthyO data.phoneNumber with
        | none => simp [submit_criteria_route, hp] at hcreated
        | some p =>
          simp only [submit_criteria_route, if_true, hp] at hcreated ⊢
          obtain ⟨rfl, rfl⟩ : tid = fresh_task_id ∧ rec = initialRecord data p := by
            simpa using hcreated.symm
          refine ⟨rfl, data, p, rfl, ?_, ?_, rfl, rfl⟩
          · cases hpn : data.phoneNumber with
            | none => rw [hpn] at hp; simp [getTruthyO] at hp
            | some s =>
              rw [hpn] at hp
              by_cases hs : s = "" <;> simp [getTruthyO, hs] at hp
              · rw [hp]
          · cases hpn : data.phoneNumber with
            | none => rw [hpn] at hp; simp [getTruthyO] at hp
            | some s =>
              rw [hpn] at hp
              by_cases hs : s = "" <;> simp [getTruthyO, hs] at hp
              · rw [← hp]; exact hs

/-- C10 witness: a payload without a phone number is rejected and creates
nothing. -/
theorem c10_submit_requires_phone_witness :
    submit_criteria_route true (some { sicCodesArray := ["62020"] }) "t1" =
      { httpStatus := 400, taskCreated := none, workerStarted := false } :=
  (c10_submit_requires_phone true (some { sicCodesArray := ["62020"] }) "t1").1
    { sicCodesArray := ["62020"] } rfl (Or.inl rfl)

/-! ## C2 — empty industry codes fail fast with no registry traffic -/

/-- C2: when the submitted criteria carry no SIC codes, the worker's
terminal status is `failed`, the record's `error` field holds the
descriptive message, and not a single Companies House request is issued. -/
theorem c2_empty_sic_fails_without_requests (env : Env) (cfg : Config)
    (task_id : String) (data : Criteria) (phone : String)
    (h : data.sicCodesArray = []) :
    (runTask env cfg task_id data phone).1.status = "failed" ∧
    (runTask env cfg task_id data phone).1.error =
      some "No SIC codes provided for search." ∧
    (runTask env cfg task_id data phone).2 = 0 := by
  unfold runTask
  rw [h]
  exact ⟨rfl, rfl, rfl⟩

/-! ## C3 — the qualified-candidate cap -/

theorem filterLoop_fst_length (env : Env) (cfg : Config) (c : Criteria) :
    ∀ (items : List SearchItem) (acc out : List QualifiedProfile),
      acc.length < cfg.maxCompanies →
      (filterLoop env cfg c items acc).1 = Except.ok out →
      out.length ≤ cfg.maxCompanies := by
  intro items
  induction items with
  | nil =>
    intro acc out hlt heq
    simp only [filterLoop] at heq
    cases heq
    omega
  | cons item rest ih =>
    intro acc out hlt heq
    simp only [filterLoop] at heq
    cases hcn : getTruthyO item.company_number with
    | none =>
      rw [hcn] at heq
      exact ih acc out hlt heq
    | some num =>
      rw [hcn] at heq
      simp only at heq
      cases hp : env.profile num with
      | none =>
        rw [hp] at heq
        exact ih acc out hlt heq
      | some p =>
        rw [hp] at heq
        simp only at heq
        by_cases hact : p.company_status ≠ some "active"
        · rw [if_pos hact] at heq
          exact ih acc out hlt heq
        · rw [if_neg hact] at heq
          cases hard : ardFilter c p.accounting_reference_date with
          | error e =>
            rw [hard] at heq
            simp at heq
          | ok keep =>
            rw [hard] at heq
            simp only at heq
            by_cases hk : keep = false
            · rw [if_pos hk] at heq
              exact ih acc out hlt heq
            · rw [if_neg hk] at heq
              by_cases hloc : locationOk c p = false
              · rw [if_pos hloc] at heq
                exact ih acc out hlt heq
              · rw [if_neg hloc] at heq
                by_cases hcap :
                    cfg.maxCompanies ≤ (acc ++ [mkQualified env c p]).length
                · rw [if_pos hcap] at heq
                  cases heq
                  simp
                  omega
                · rw [if_neg hcap] at heq
                  exact ih (acc ++ [mkQualified env c p]) out (by omega) heq

/-- C3: whenever stage 2 completes without an exception, the qualified list
it accumulated from an empty start never exceeds the configured
`MAX_COMPANIES_TO_PROCESS_CONFIG` cap (assumed positive, as any value the
configuration parser actually produces), no matter how many fetched items
pass every filter. -/
theorem c3_qualified_cap (env : Env) (cfg : Config) (c : Criteria)
    (items : List SearchItem) (out : List QualifiedProfile) (n : Nat)
    (hcap : 1 ≤ cfg.maxCompanies)
    (h : filterLoop env cfg c items [] = (Except.ok out, n)) :
    out.length ≤ cfg.maxCompanies := by
  have h1 : (filterLoop env cfg c items []).1 = Except.ok out := by rw [h]
  exact filterLoop_fst_length env cfg c items [] out (by simpa using hcap) h1

/-- A fixture active-company profile for a given company number. -/
def activeProfile (num : String) : CompanyProfile :=
  { company_number := some num, company_name := some "X Ltd",
    company_status := some "active" }

/-- A fixture environment where every profile is an active company. -/
def envCap : Env :=
  { envW with profile := fun num => some (activeProfile num) }

/-- Three search items that all pass every stage-2 filter. -/
def itemsCap : List SearchItem :=
  [{ company_number := some "1" }, { company_number := some "2" },
   { company_number := some "3" }]

/-- A configuration with a cap of two qualified candidates. -/
def cfgCap : Config := { maxCompanies := 2 }

/-- C3 witness: with three all-passing items and a cap of two, stage 2
stops at two qualified profiles. -/
theorem c3_qualified_cap_witness :
    ([mkQualified envCap {} (activeProfile "1"),
      mkQualified envCap {} (activeProfile "2")]
      : List QualifiedProfile).length ≤ cfgCap.maxCompanies :=
  c3_qualified_cap envCap cfgCap {} itemsCap
    [mkQualified envCap {} (activeProfile "1"),
     mkQualified envCap {} (activeProfile "2")]
    2 (by decide) rfl

/-! ## C4 — the financial-year-end range filter -/

/-- The year scan accepts exactly when some year of
`[start.year - 1, end.year + 1]` admits the day/month combination as a
valid date lying inside the inclusive search range. -/
theorem ardYearScan_iff (sd ed : PyDate) (m d : Nat) :
    ardYearScan sd ed m d = true ↔
      ∃ y, sd.y - 1 ≤ y ∧ y ≤ ed.y + 1 ∧ validDate y m d = true ∧
        dateLE sd ⟨y, m, d⟩ = true ∧ dateLE ⟨y, m, d⟩ ed = true := by
  unfold ardYearScan
  rw [List.any_eq_true]
  constructor
  · rintro ⟨y, hy, hp⟩
    rw [List.mem_range'_1] at hy
    rw [Bool.and_eq_true, Bool.and_eq_true] at hp
    exact ⟨y, by omega, by omega, hp.1.1, hp.1.2, hp.2⟩
  · rintro ⟨y, h1, h2, h3, h4, h5⟩
    refine ⟨y, ?_, ?_⟩
    · rw [List.mem_range'_1]
      omega
    · rw [Bool.and_eq_true, Bool.and_eq_true]
      exact ⟨⟨h3, h4⟩, h5⟩

/-- C4: on a criteria in `range` mode whose two bounds are truthy,
parseable dates, and an accounting reference date whose (zero-filled) day
and month are digit strings passing the raw `1..31` / `1..12` pre-check —
in particular day 29, month 2 against a non-leap-year window — the filter
returns a value rather than raising, and it accepts the company exactly
when some calendar year in `[start.year - 1, end.year + 1]` admits the
day/month pair as a constructible date lying in the inclusive range;
years where construction would raise are merely skipped. -/
theorem c4_ard_range_filter (c : Criteria) (info : ARDInfo)
    (sds eds dayS monS : String) (sd ed : PyDate)
    (hft : c.budgetEndDateSearchType = some "range")
    (hsd : c.budgetEndStartDate = some sds)
    (hed : c.budgetEndEndDate = some eds)
    (hsp : parseDate sds = some sd) (hep : parseDate eds = some ed)
    (hday : info.day = some dayS) (hmon : info.month = some monS)
    (hdd : isdigitStr (zfill2 dayS) = true) (hmd : isdigitStr (zfill2 monS) = true)
    (hm1 : 1 ≤ toNatDigits (zfill2 monS)) (hm2 : toNatDigits (zfill2 monS) ≤ 12)
    (hd1 : 1 ≤ toNatDigits (zfill2 dayS)) (hd2 : toNatDigits (zfill2 dayS) ≤ 31) :
    ardFilter c (some info) = Except.ok
      (ardYearScan sd ed (toNatDigits (zfill2 monS)) (toNatDigits (zfill2 dayS))) ∧
    (ardYearScan sd ed (toNatDigits (zfill2 monS)) (toNatDigits (zfill2 dayS)) = true ↔
      ∃ y, sd.y - 1 ≤ y ∧ y ≤ ed.y + 1 ∧
        validDate y (toNatDigits (zfill2 monS)) (toNatDigits (zfill2 dayS)) = true ∧
        dateLE sd ⟨y, toNatDigits (zfill2 monS), toNatDigits (zfill2 dayS)⟩ = true ∧
        dateLE ⟨y, toNatDigits (zfill2 monS), toNatDigits (zfill2 dayS)⟩ ed = true) := by
  have hparse0 : parseDate "" = (none : Option PyDate) := by decide
  have hsne : sds ≠ "" := by
    intro hcontra
    rw [hcontra, hparse0] at hsp
    simp at hsp
  have hene : eds ≠ "" := by
    intro hcontra
    rw [hcontra, hparse0] at hep
    simp at hep
  constructor
  · have h1 : getTruthyO c.budgetEndDateSearchType = some "range" := by
      rw [hft]; rfl
    have h2 : getTruthyO c.budgetEndStartDate = some sds := by
      rw [hsd]; simp [getTruthyO, hsne]
    have h3 : getTruthyO c.budgetEndEndDate = some eds := by
      rw [hed]; simp [getTruthyO, hene]
    have hbounds : (1 ≤ toNatDigits (zfill2 monS)
        && toNatDigits (zfill2 monS) ≤ 12
        && 1 ≤ toNatDigits (zfill2 dayS)
        && toNatDigits (zfill2 dayS) ≤ 31) = true := by
      simp only [Bool.and_eq_true, decide_eq_true_eq]
      exact ⟨⟨⟨hm1, hm2⟩, hd1⟩, hd2⟩
    unfold ardFilter
    rw [h1]
    simp only [hday, hmon, Option.getD_some]
    rw [h2, h3]
    simp only [hdd, hmd, Bool.and_self, ite_true]
    unfold ardRangeCheck
    rw [hsp, hep]
    simp only [hbounds, Bool.not_true, Bool.false_eq_true, ite_false]
    rw [if_neg (show ¬("range" = "month") by decide)]
  · exact ardYearScan_iff sd ed (toNatDigits (zfill2 monS)) (toNatDigits (zfill2 dayS))

/-- The C4 reference criteria: `range` mode spanning Feb 25 - Mar 5 of the
non-leap year 2023. -/
def criteriaLeapW : Criteria :=
  { sicCodesArray := ["62020"], budgetEndDateSearchType := some "range",
    budgetEndStartDate := some "2023-02-25", budgetEndEndDate := some "2023-03-05" }

/-- C4 witness: the leap-day accounting reference date (day 29, month 2)
against the 2023 window — the filter evaluates without raising and its
acceptance is exactly the year-scan condition. -/
theorem c4_ard_range_filter_witness :
    ardFilter criteriaLeapW (some { day := some "29", month := some "2" })
        = Except.ok (ardYearScan ⟨2023, 2, 25⟩ ⟨2023, 3, 5⟩
            (toNatDigits (zfill2 "2")) (toNatDigits (zfill2 "29"))) ∧
    (ardYearScan ⟨2023, 2, 25⟩ ⟨2023, 3, 5⟩
        (toNatDigits (zfill2 "2")) (toNatDigits (zfill2 "29")) = true ↔
      ∃ y, 2023 - 1 ≤ y ∧ y ≤ 2023 + 1 ∧
        validDate y (toNatDigits (zfill2 "2")) (toNatDigits (zfill2 "29")) = true ∧
        dateLE ⟨2023, 2, 25⟩ ⟨y, toNatDigits (zfill2 "2"), toNatDigits (zfill2 "29")⟩ = true ∧
        dateLE ⟨y, toNatDigits (zfill2 "2"), toNatDigits (zfill2 "29")⟩ ⟨2023, 3, 5⟩ = true) :=
  c4_ard_range_filter criteriaLeapW { day := some "29", month := some "2" }
    "2023-02-25" "2023-03-05" "29" "2" ⟨2023, 2, 25⟩ ⟨2023, 3, 5⟩
    rfl rfl rfl (by decide) (by decide) rfl rfl
    (by decide) (by decide) (by decide) (by decide) (by decide) (by decide)

/-- C2 witness: a concrete criteria object with an empty SIC list. -/
theorem c2_empty_sic_fails_without_requests_witness :
    (runTask envW {} "tid" { phoneNumber := some "+44" } "+44").1.status
      = "failed" ∧
    (runTask envW {} "tid" { phoneNumber := some "+44" } "+44").2 = 0 :=
  have h := c2_empty_sic_fails_without_requests envW {} "tid"
    { phoneNumber := some "+44" } "+44" rfl
  ⟨h.1, h.2.2⟩

/-! ## C1 — terminal statuses and the notification condition

The claim as stated is false on the code: a run whose search returned
items but whose stage-2 filtering qualified none of them finishes with
status `completed_ch_search` — not one of the four claimed terminal
states — and the SMS stage's guard (`status not in ['failed','pending']`)
then still fires. -/

theorem smsStep_status (env : Env) (cfg : Config) (task_id phone : String)
    (r : TaskRecord) : (smsStep env cfg task_id phone r).status = r.status := by
  unfold smsStep
  split
  · split
    · split <;> rfl
    · rfl
  · rfl

/-- Every worker run ends either in a `failed` record whose SMS status was
never touched, or in `smsStep` applied to a record in one of the four
completed statuses. -/
theorem runTask_shape (env : Env) (cfg : Config) (task_id : String)
    (data : Criteria) (phone : String) :
    ((runTask env cfg task_id data phone).1.status = "failed" ∧
     (runTask env cfg task_id data phone).1.sms_status = "pending") ∨
    ∃ r0 : TaskRecord,
      (runTask env cfg task_id data phone).1 = smsStep env cfg task_id phone r0 ∧
      r0.sms_status = "pending" ∧
      (r0.status = "completed_no_results" ∨ r0.status = "completed_ch_search" ∨
       r0.status = "completed_no_emails" ∨
       r0.status = "completed_anymailfinder") := by
  unfold runTask
  by_cases h0 : data.sicCodesArray.isEmpty = true
  · rw [if_pos h0]
    exact Or.inl ⟨rfl, rfl⟩
  · rw [if_neg h0]
    dsimp only
    by_cases h1 : (searchLoop env cfg (data.sicCodesArray.headD "")
        (cfg.maxInitial + 1) 0 []).1.isEmpty = true
    · rw [if_pos h1]
      exact Or.inr ⟨_, rfl, rfl, Or.inl rfl⟩
    · rw [if_neg h1]
      rcases hres : filterLoop env cfg data (searchLoop env cfg
          (data.sicCodesArray.headD "") (cfg.maxInitial + 1) 0 []).1 []
        with ⟨res, n2⟩
      cases res with
      | error e => exact Or.inl ⟨rfl, rfl⟩
      | ok qualified =>
        dsimp only
        by_cases h2 : qualified.isEmpty = true
        · rw [if_pos h2]
          exact Or.inr ⟨_, rfl, rfl, Or.inr (Or.inl rfl)⟩
        · rw [if_neg h2]
          dsimp only
          by_cases h3 : (stage3 env qualified []).1.isEmpty = true
          · rw [if_pos h3]
            exact Or.inr ⟨_, rfl, rfl, Or.inr (Or.inr (Or.inl rfl))⟩
          · rw [if_neg h3]
            exact Or.inr ⟨_, rfl, rfl, Or.inr (Or.inr (Or.inr rfl))⟩

/-- An environment producing one search item whose company is not
`active`, so that stage 2 qualifies nothing. -/
def envC1 : Env :=
  { envW with
    searchPage := fun _ i =>
      if i = 0 then some { items := [{ company_number := some "00000001" }],
                           total_results := 1 }
      else none,
    profile := fun num => some { company_number := some num,
                                 company_name := some "X Ltd",
                                 company_status := some "dissolved" } }

/-- The C1 criteria fixture. -/
def dataC1 : Criteria :=
  { sicCodesArray := ["62020"], phoneNumber := some "+441234567890" }

/-- C1 counterexample: with one fetched item and zero qualified
candidates, the worker terminates in `completed_ch_search`, which is none
of the four claimed terminal states, and the notification stage
nevertheless runs (the SMS is sent). -/
theorem c1_counterexample :
    (runTask envC1 {} "tid" dataC1 "+441234567890").1.status
        = "completed_ch_search" ∧
    ((runTask envC1 {} "tid" dataC1 "+441234567890").1.status
        ∉ (["completed_no_results", "completed_no_emails",
            "completed_anymailfinder", "failed"] : List String)) ∧
    (runTask envC1 {} "tid" dataC1 "+441234567890").1.sms_status = "sent" := by
  refine ⟨by decide, by decide, by decide⟩

/-- C1 (amended): every worker run terminates in one of the five statuses
`completed_no_results`, `completed_ch_search`, `completed_no_emails`,
`completed_anymailfinder`, `failed` (so the claimed four plus the
zero-qualified status `completed_ch_search`), and whenever the
notification stage has run (the SMS status left `pending`), the status is
neither `failed` nor `pending`. -/
theorem c1_amended_terminal_statuses (env : Env) (cfg : Config)
    (task_id : String) (data : Criteria) (phone : String) :
    ((runTask env cfg task_id data phone).1.status = "completed_no_results" ∨
     (runTask env cfg task_id data phone).1.status = "completed_ch_search" ∨
     (runTask env cfg task_id data phone).1.status = "completed_no_emails" ∨
     (runTask env cfg task_id data phone).1.status = "completed_anymailfinder" ∨
     (runTask env cfg task_id data phone).1.status = "failed") ∧
    ((runTask env cfg task_id data phone).1.sms_status ≠ "pending" →
      (runTask env cfg task_id data phone).1.status ≠ "failed" ∧
      (runTask env cfg task_id data phone).1.status ≠ "pending") := by
  rcases runTask_shape env cfg task_id data phone with ⟨hst, hsms⟩ |
    ⟨r0, heq, hsms0, hst0⟩
  · exact ⟨Or.inr (Or.inr (Or.inr (Or.inr hst))), fun hne => absurd hsms hne⟩
  · rw [heq, smsStep_status]
    constructor
    · rcases hst0 with h | h | h | h
      · exact Or.inl h
      · exact Or.inr (Or.inl h)
      · exact Or.inr (Or.inr (Or.inl h))
      · exact Or.inr (Or.inr (Or.inr (Or.inl h)))
    · intro _
      rcases hst0 with h | h | h | h <;> rw [h] <;> exact ⟨by decide, by decide⟩

/-- C1 (amended) witness: a run whose search finds nothing ends in
`completed_no_results` with the SMS sent, so the notification-condition
implication fires on a concrete input. -/
theorem c1_amended_terminal_statuses_witness :
    (runTask envW {} "tid" dataC1 "+441234567890").1.status ≠ "failed" ∧
    (runTask envW {} "tid" dataC1 "+441234567890").1.status ≠ "pending" :=
  (c1_amended_terminal_statuses envW {} "tid" dataC1 "+441234567890").2 (by decide)

/-! ## C6 — client retry policies

The claim as stated is false on the code in three places: the Email
Finder Client does not retry a timeout (the `except Timeout` arm breaks
immediately); the Registry Client returns plain `None` on a 404 instead
of a typed not-found value; and the Registry Client's own timeout /
generic-request-error handlers sit at an indentation where they belong to
no `try` at all (source lines 397-400), so a Registry timeout is not
handled inside the wrapper. -/

/-- C6 counterexample: an Email Finder call whose attempts all time out
performs exactly one attempt — not the two a retry-once-on-timeout policy
would — and returns absent with no backoff sleep. -/
theorem c6_counterexample :
    make_anymailfinder_request_model (fun _ => HttpAttempt.timeoutErr)
        = (none, 1, []) ∧
    (make_anymailfinder_request_model (fun _ => HttpAttempt.timeoutErr)).2.1 ≠ 2 := by
  exact ⟨by decide, by decide⟩

/-- C6 (amended): the clients' observable retry behavior. Registry
Client: one retry on 429 with the server's `Retry-After` delay when it
parses (the default 5s otherwise), one retry on a connection error with a
fixed 5s delay, plain absence (no typed not-found) on 404, and an
unhandled escape on timeout; Email Finder Client: one retry on 429 and on
connection errors with fixed delays, the typed not-found object on 404,
and absence without retry on timeout; both return absent once retries are
exhausted. -/
theorem c6_amended_retry_policy :
    (∀ body : AmfResult,
      make_companies_house_request_model
          (fun i => if i = 0 then HttpAttempt.httpErr 429 (some "7")
                    else HttpAttempt.ok body)
        = (Except.ok (some body), 2, [7])) ∧
    (∀ body : AmfResult,
      make_companies_house_request_model
          (fun i => if i = 0 then HttpAttempt.httpErr 429 none
                    else HttpAttempt.ok body)
        = (Except.ok (some body), 2, [5])) ∧
    make_companies_house_request_model
        (fun _ => (HttpAttempt.httpErr 404 none : HttpAttempt AmfResult))
        = (Except.ok none, 1, []) ∧
    make_companies_house_request_model
        (fun _ => (HttpAttempt.connErr : HttpAttempt AmfResult))
        = (Except.ok none, 2, [5]) ∧
    (∃ e, make_companies_house_request_model
        (fun _ => (HttpAttempt.timeoutErr : HttpAttempt AmfResult))
        = (Except.error e, 1, [])) ∧
    (∀ body : AmfResult,
      make_anymailfinder_request_model
          (fun i => if i = 0 then HttpAttempt.httpErr 429 none
                    else HttpAttempt.ok body)
        = (some body, 2, [10])) ∧
    make_anymailfinder_request_model
        (fun _ => HttpAttempt.httpErr 404 none) = (some amfNotFound, 1, []) ∧
    make_anymailfinder_request_model
        (fun _ => HttpAttempt.connErr) = (none, 2, [10]) ∧
    make_anymailfinder_request_model
        (fun _ => HttpAttempt.timeoutErr) = (none, 1, []) := by
  refine ⟨fun body => rfl, fun body => rfl, rfl, rfl,
    ⟨"requests.exceptions.Timeout", rfl⟩, fun body => rfl,
    by decide, by decide, by decide⟩

end Bogle
